import Mathlib

/-!
# Verification of the Tax Comparison Engine (`tax_engine.py`)

Shallow embedding of the Old-Regime / New-Regime income-tax calculators,
the professional-tax lookup and the comparator, over exact rationals `ℚ`
(the Python floats are modelled as real-valued arithmetic).  Python's
`round(x, 2)` is modelled by `round2`, rounding half away from zero at the
second decimal via Mathlib's `round` (round half up); the claims settled
here never hinge on exact half-paise ties.
-/

namespace TaxEngine

/-- Python `s.lower()` (ASCII, as in the state and city names used here). -/
def pyLower (s : String) : String := ⟨s.data.map Char.toLower⟩

/-- Python `s.strip()`: drop whitespace from both ends. -/
def pyStrip (s : String) : String :=
  ⟨((s.data.dropWhile Char.isWhitespace).reverse.dropWhile Char.isWhitespace).reverse⟩

/-- `round(x, 2)`: round to two decimal places. -/
def round2 (q : ℚ) : ℚ := ((round (q * 100) : ℤ) : ℚ) / 100

/-- The ten "high professional tax" states from `get_professional_tax`. -/
def high_pt_states : List String :=
  ["maharashtra", "karnataka", "telangana", "andhra pradesh",
   "west bengal", "tamil nadu", "gujarat", "madhya pradesh", "kerala", "odisha"]

/-- `get_professional_tax(state, gross_income)` (lines 7-19 of the source):
annual professional tax from the lower-cased, stripped state name. -/
def get_professional_tax (st : String) (gross_income : ℚ) : ℚ :=
  let s := pyStrip (pyLower st)
  if s ∈ high_pt_states then
    if gross_income > 150000 then 2500
    else if gross_income > 100000 then 2000
    else 0
  else 0

/-- The numeric and categorical fields of one input record, after the
`float(data.get(k, 0) or 0)` coercions (the raw-dictionary layer is
modelled separately below). -/
structure TaxInput where
  annual_income : ℚ
  income_from_interest : ℚ
  income_from_other_sources : ℚ
  state : String
  section_80c : ℚ
  section_80d : ℚ
  section_80ccd_1b : ℚ
  section_80tta : ℚ
  home_loan_interest : ℚ
  hra_received : ℚ
  rent_paid : ℚ
  city_type : String
deriving DecidableEq

/-- The `components` breakdown of the Old-Regime result (lines 79-88). -/
structure OldComponents where
  std_deduction : ℚ
  ded_80c : ℚ
  ded_80d : ℚ
  ded_80ccd_1b : ℚ
  ded_80tta : ℚ
  hra_exemption : ℚ
  home_loan_interest : ℚ
  prof_tax : ℚ
deriving DecidableEq

/-- A regime result without components (shape of the New-Regime dict). -/
structure RegimeResult where
  regime : String
  gross_income : ℚ
  total_deductions : ℚ
  taxable_income : ℚ
  base_tax : ℚ
  cess : ℚ
  total_tax_payable : ℚ
deriving DecidableEq

/-- The Old-Regime result dict (lines 71-89). -/
structure OldResult where
  regime : String
  gross_income : ℚ
  total_deductions : ℚ
  taxable_income : ℚ
  base_tax : ℚ
  cess : ℚ
  total_tax_payable : ℚ
  components : OldComponents
deriving DecidableEq

/-- `limit_pct` of the HRA computation (lines 44-45): 0.50 when
`city_type.strip().lower() == "metro"`, else 0.40. -/
def hraLimitPct (city_type : String) : ℚ :=
  if pyLower (pyStrip city_type) = "metro" then 0.50 else 0.40

/-- The HRA exemption (lines 38-47): the three-way minimum, guarded by all
of `hra_received`, `rent_paid` and `salary` being strictly positive. -/
def hra_exemption_calc (salary hra_received rent_paid : ℚ) (city_type : String) : ℚ :=
  if hra_received > 0 ∧ rent_paid > 0 ∧ salary > 0 then
    min hra_received (min (max 0 (rent_paid - 0.10 * salary)) (hraLimitPct city_type * salary))
  else 0

/-- Old Regime, line 27: `gross_income = salary + interest + other`. -/
def oldGross (d : TaxInput) : ℚ :=
  d.annual_income + d.income_from_interest + d.income_from_other_sources

/-- Old Regime, line 29: professional tax on (state, gross income). -/
def oldProfTax (d : TaxInput) : ℚ := get_professional_tax d.state (oldGross d)

/-- Old Regime HRA exemption on the record's fields. -/
def oldHraExemption (d : TaxInput) : ℚ :=
  hra_exemption_calc d.annual_income d.hra_received d.rent_paid d.city_type

/-- Old Regime, lines 49-52: total deductions (std deduction 50,000 plus
professional tax plus the five capped deductions plus HRA exemption). -/
def oldTotalDeductions (d : TaxInput) : ℚ :=
  50000 + oldProfTax d + min d.section_80c 150000 + min d.section_80d 25000
    + min d.section_80ccd_1b 50000 + min d.section_80tta 10000
    + min d.home_loan_interest 200000 + oldHraExemption d

/-- Old Regime, line 53: `taxable_income = max(0, gross - deductions)`. -/
def oldTaxable (d : TaxInput) : ℚ := max 0 (oldGross d - oldTotalDeductions d)

/-- Old-Regime slab computation (lines 56-63), before the rebate. -/
def oldSlab (ti : ℚ) : ℚ :=
  if ti ≤ 250000 then 0
  else if ti ≤ 500000 then (ti - 250000) * 0.05
  else if ti ≤ 1000000 then 12500 + (ti - 500000) * 0.20
  else 112500 + (ti - 1000000) * 0.30

/-- Old Regime base tax after the 87A rebate (lines 65-66). -/
def oldBaseTax (d : TaxInput) : ℚ :=
  if oldTaxable d ≤ 500000 then 0 else oldSlab (oldTaxable d)

/-- Old Regime, line 68: 4% cess. -/
def oldCess (d : TaxInput) : ℚ := oldBaseTax d * 0.04

/-- Old Regime, line 69: total tax. -/
def oldTotalTax (d : TaxInput) : ℚ := oldBaseTax d + oldCess d

/-- `calculate_tax_old_regime` on coerced numeric fields (lines 22-89):
all monetary outputs rounded to two decimals at the point of return. -/
def oldRegimeResult (d : TaxInput) : OldResult :=
  { regime := "Old Regime"
    gross_income := round2 (oldGross d)
    total_deductions := round2 (oldTotalDeductions d)
    taxable_income := round2 (oldTaxable d)
    base_tax := round2 (oldBaseTax d)
    cess := round2 (oldCess d)
    total_tax_payable := round2 (oldTotalTax d)
    components :=
      { std_deduction := 50000
        ded_80c := min d.section_80c 150000
        ded_80d := min d.section_80d 25000
        ded_80ccd_1b := min d.section_80ccd_1b 50000
        ded_80tta := min d.section_80tta 10000
        hra_exemption := round2 (oldHraExemption d)
        home_loan_interest := min d.home_loan_interest 200000
        prof_tax := oldProfTax d } }

/-- New Regime, line 97: gross income. -/
def newGross (d : TaxInput) : ℚ :=
  d.annual_income + d.income_from_interest + d.income_from_other_sources

/-- New Regime, line 99: `std_deduction = 50000 if salary > 0 else 0`. -/
def newStdDeduction (d : TaxInput) : ℚ := if d.annual_income > 0 then 50000 else 0

/-- New Regime, line 101: taxable income. -/
def newTaxable (d : TaxInput) : ℚ := max 0 (newGross d - newStdDeduction d)

/-- New-Regime slab computation (lines 104-115), before the rebate. -/
def newSlab (ti : ℚ) : ℚ :=
  if ti ≤ 300000 then 0
  else if ti ≤ 600000 then (ti - 300000) * 0.05
  else if ti ≤ 900000 then 15000 + (ti - 600000) * 0.10
  else if ti ≤ 1200000 then 45000 + (ti - 900000) * 0.15
  else if ti ≤ 1500000 then 90000 + (ti - 1200000) * 0.20
  else 150000 + (ti - 1500000) * 0.30

/-- New Regime base tax after the 87A rebate (lines 117-118). -/
def newBaseTax (d : TaxInput) : ℚ :=
  if newTaxable d ≤ 700000 then 0 else newSlab (newTaxable d)

/-- New Regime, line 120: 4% cess. -/
def newCess (d : TaxInput) : ℚ := newBaseTax d * 0.04

/-- New Regime, line 121: total tax. -/
def newTotalTax (d : TaxInput) : ℚ := newBaseTax d + newCess d

/-- `calculate_tax_new_regime` on coerced numeric fields (lines 92-131). -/
def newRegimeResult (d : TaxInput) : RegimeResult :=
  { regime := "New Regime"
    gross_income := round2 (newGross d)
    total_deductions := round2 (newStdDeduction d)
    taxable_income := round2 (newTaxable d)
    base_tax := round2 (newBaseTax d)
    cess := round2 (newCess d)
    total_tax_payable := round2 (newTotalTax d) }

/-- One advisory suggestion of `calculate_comprehensive` (lines 141-149);
the display formatting of the f-strings is abstracted into the carried gap. -/
inductive Suggestion where
  | invest80C (gap : ℚ)
  | investNPS (gap : ℚ)
  | healthInsurance80D
deriving DecidableEq

/-- The dict returned by `calculate_comprehensive` (lines 151-157). -/
structure ComprehensiveResult where
  old_regime : OldResult
  new_regime : RegimeResult
  best_regime : String
  tax_saved : ℚ
  suggestions : List Suggestion
deriving DecidableEq

/-- `calculate_comprehensive` on coerced numeric fields (lines 134-157):
run both regimes, pick the strictly cheaper one (ties favour Old), and
collect the three independent suggestions. -/
def comprehensiveResult (d : TaxInput) : ComprehensiveResult :=
  let old_r := oldRegimeResult d
  let new_r := newRegimeResult d
  let best := if new_r.total_tax_payable < old_r.total_tax_payable then "New Regime"
    else "Old Regime"
  let tax_saved := |old_r.total_tax_payable - new_r.total_tax_payable|
  let suggestions :=
    (if d.section_80c < 150000 then [Suggestion.invest80C (150000 - d.section_80c)] else [])
      ++ (if d.section_80ccd_1b < 50000 then [Suggestion.investNPS (50000 - d.section_80ccd_1b)]
          else [])
      ++ (if d.section_80d = 0 then [Suggestion.healthInsurance80D] else [])
  { old_regime := old_r, new_regime := new_r, best_regime := best,
    tax_saved := round2 tax_saved, suggestions := suggestions }

/-!
## The raw dictionary layer

The calculators receive a Python dict and coerce each field with
`float(data.get(key, 0) or 0)`.  A dict value is modelled by `PyVal`:
a number, `None`, or a string `PyVal.str s p` carried together with the
result `p` of Python `float(s)` (`some q` when `s` is a numeric literal
denoting `q`, `Option.none` when `float(s)` raises `ValueError`).  A raised
exception is modelled as `Except.error`.
-/

/-- A value stored in the input dict. -/
inductive PyVal where
  | num (q : ℚ)
  | str (s : String) (parsed : Option ℚ)
  | noneV
deriving DecidableEq

/-- Python truthiness of a dict value: `0`, `""` and `None` are falsy. -/
def PyVal.truthy : PyVal → Bool
  | .num q => q != 0
  | .str s _ => s != ""
  | .noneV => false

/-- The input dict: an association list of field name to value. -/
abbrev TaxData := List (String × PyVal)

/-- `data.get(k)`: `Option.none` when the key is absent. -/
def getVal (d : TaxData) (k : String) : Option PyVal :=
  (d.find? (fun p => p.1 == k)).map (fun p => p.2)

/-- Python `float(v)`: numbers pass through, numeric strings parse,
non-numeric strings raise `ValueError`, `None` raises `TypeError`. -/
def pyFloat : PyVal → Except String ℚ
  | .num q => .ok q
  | .str s parsed =>
      match parsed with
      | some q => .ok q
      | Option.none => .error ("ValueError: could not convert string to float: " ++ s)
  | .noneV => .error "TypeError: float() argument must not be None"

/-- `float(data.get(k, 0) or 0)`: a missing key defaults to `0`, a falsy
value (`0`, `""`, `None`) is replaced by `0`, anything else goes through
`float`. -/
def getNum (d : TaxData) (k : String) : Except String ℚ :=
  let v := (getVal d k).getD (PyVal.num 0)
  if v.truthy then pyFloat v else .ok 0

/-- `data.get("state", "Delhi")` followed by the `.lower()` call inside
`get_professional_tax`: a missing key defaults to `"Delhi"`, a non-string
value raises `AttributeError`. -/
def getStateStr (d : TaxData) : Except String String :=
  match getVal d "state" with
  | Option.none => .ok "Delhi"
  | some (PyVal.str s _) => .ok s
  | some _ => .error "AttributeError: no attribute lower"

/-- `(v or "")` followed by `.strip()` (line 44): falsy values give `""`,
truthy non-strings raise `AttributeError`. -/
def orEmptyStr (v : Option PyVal) : Except String String :=
  let w := v.getD PyVal.noneV
  if w.truthy then
    match w with
    | PyVal.str s _ => .ok s
    | _ => .error "AttributeError: no attribute strip"
  else .ok ""

/-- `(data.get("city_type") or "")` of line 44. -/
def getCityStr (d : TaxData) : Except String String := orEmptyStr (getVal d "city_type")

/-- `calculate_tax_old_regime` on the raw dict: coerce every field in the
source's order, then run the arithmetic; the `city_type` field is only
touched when the HRA branch of line 41 is entered. -/
def calculate_tax_old_regime (data : TaxData) : Except String OldResult := do
  let salary ← getNum data "annual_income"
  let interest ← getNum data "income_from_interest"
  let other ← getNum data "income_from_other_sources"
  let st ← getStateStr data
  let c80c ← getNum data "section_80c"
  let c80d ← getNum data "section_80d"
  let c80ccd ← getNum data "section_80ccd_1b"
  let c80tta ← getNum data "section_80tta"
  let hloan ← getNum data "home_loan_interest"
  let hra ← getNum data "hra_received"
  let rent ← getNum data "rent_paid"
  let city ← if hra > 0 ∧ rent > 0 ∧ salary > 0 then getCityStr data else pure ""
  pure (oldRegimeResult
    { annual_income := salary, income_from_interest := interest,
      income_from_other_sources := other, state := st, section_80c := c80c,
      section_80d := c80d, section_80ccd_1b := c80ccd, section_80tta := c80tta,
      home_loan_interest := hloan, hra_received := hra, rent_paid := rent,
      city_type := city })

/-- `calculate_tax_new_regime` on the raw dict: only the three income
fields are read; the remaining `TaxInput` fields are irrelevant padding
(the New-Regime arithmetic never reads them). -/
def calculate_tax_new_regime (data : TaxData) : Except String RegimeResult := do
  let salary ← getNum data "annual_income"
  let interest ← getNum data "income_from_interest"
  let other ← getNum data "income_from_other_sources"
  pure (newRegimeResult
    { annual_income := salary, income_from_interest := interest,
      income_from_other_sources := other, state := "Delhi", section_80c := 0,
      section_80d := 0, section_80ccd_1b := 0, section_80tta := 0,
      home_loan_interest := 0, hra_received := 0, rent_paid := 0, city_type := "" })

/-- `(data.get(k) or 0) < bound` (lines 142, 145): a truthy string cannot
be compared with a number and raises `TypeError`. -/
def orZeroLtCheck (v : Option PyVal) (bound : ℚ) : Except String Bool :=
  let w := v.getD PyVal.noneV
  if w.truthy then
    match w with
    | PyVal.num q => .ok (decide (q < bound))
    | _ => .error "TypeError: not supported between str and int"
  else .ok (decide ((0 : ℚ) < bound))

/-- The numeric value of `(data.get(k) or 0)` used in `bound - (... or 0)`
(lines 143, 146). -/
def orZeroValue (v : Option PyVal) : Except String ℚ :=
  let w := v.getD PyVal.noneV
  if w.truthy then
    match w with
    | PyVal.num q => .ok q
    | _ => .error "TypeError: unsupported operand"
  else .ok 0

/-- `(data.get("section_80d") or 0) == 0` (line 148): Python `==` never
raises; a truthy string is simply not equal to `0`. -/
def orZeroEqZero (v : Option PyVal) : Bool :=
  let w := v.getD PyVal.noneV
  if w.truthy then
    match w with
    | PyVal.num q => decide (q = 0)
    | _ => false
  else true

/-- `calculate_comprehensive` on the raw dict (lines 134-157). -/
def calculate_comprehensive (data : TaxData) : Except String ComprehensiveResult := do
  let old_r ← calculate_tax_old_regime data
  let new_r ← calculate_tax_new_regime data
  let best := if new_r.total_tax_payable < old_r.total_tax_payable then "New Regime"
    else "Old Regime"
  let tax_saved := |old_r.total_tax_payable - new_r.total_tax_payable|
  let b80c ← orZeroLtCheck (getVal data "section_80c") 150000
  let s1 ← if b80c then do
      let q ← orZeroValue (getVal data "section_80c")
      pure [Suggestion.invest80C (150000 - q)]
    else pure ([] : List Suggestion)
  let bccd ← orZeroLtCheck (getVal data "section_80ccd_1b") 50000
  let s2 ← if bccd then do
      let q ← orZeroValue (getVal data "section_80ccd_1b")
      pure [Suggestion.investNPS (50000 - q)]
    else pure ([] : List Suggestion)
  let s3 := if orZeroEqZero (getVal data "section_80d") then [Suggestion.healthInsurance80D]
    else []
  pure { old_regime := old_r, new_regime := new_r, best_regime := best,
         tax_saved := round2 tax_saved, suggestions := s1 ++ s2 ++ s3 }

/-- Whether an `Except` value is a success (no exception raised). -/
def exOk {α : Type} (e : Except String α) : Bool :=
  match e with
  | .ok _ => true
  | .error _ => false

/-!
## Concrete inputs used by witnesses and counterexamples
-/

/-- The all-zero record of concrete scenario 3 (`state` at its documented
default `"Delhi"`, `city_type` at the coerced default `""`). -/
def inputZero : TaxInput :=
  { annual_income := 0, income_from_interest := 0, income_from_other_sources := 0,
    state := "Delhi", section_80c := 0, section_80d := 0, section_80ccd_1b := 0,
    section_80tta := 0, home_loan_interest := 0, hra_received := 0, rent_paid := 0,
    city_type := "" }

/-- The record of concrete scenarios 1 and 2: salary 800,000, maxed 80C/80D/
80CCD(1B) deductions, no HRA, state `"Delhi"`. -/
def scenarioOne : TaxInput :=
  { annual_income := 800000, income_from_interest := 0, income_from_other_sources := 0,
    state := "Delhi", section_80c := 150000, section_80d := 25000, section_80ccd_1b := 50000,
    section_80tta := 0, home_loan_interest := 0, hra_received := 0, rent_paid := 0,
    city_type := "" }

/-- A salary with a fractional paise part: taxable income 750,000.25 under
the Old Regime, whose base tax 62,500.05 has cess 2,500.002. -/
def inputPaise : TaxInput :=
  { annual_income := 800000.25, income_from_interest := 0, income_from_other_sources := 0,
    state := "Delhi", section_80c := 0, section_80d := 0, section_80ccd_1b := 0,
    section_80tta := 0, home_loan_interest := 0, hra_received := 0, rent_paid := 0,
    city_type := "" }

/-- `"Delhi"` is not a high-professional-tax state, so its professional
tax is 0 at every gross income. -/
theorem profTax_delhi (g : ℚ) : get_professional_tax "Delhi" g = 0 := by
  have hmem : ¬ (pyStrip (pyLower "Delhi") ∈ high_pt_states) := by decide
  simp only [get_professional_tax]
  rw [if_neg hmem]

/-- On the all-zero record the Old-Regime taxable income is 0 (the
standard deduction exceeds the zero gross income). -/
theorem oldTaxable_inputZero : oldTaxable inputZero = 0 := by
  have hpt : oldProfTax inputZero = 0 := by
    rw [oldProfTax]
    exact profTax_delhi _
  have hd : oldTotalDeductions inputZero = 50000 := by
    rw [oldTotalDeductions, hpt]
    norm_num [oldHraExemption, hra_exemption_calc, inputZero, min_def]
  rw [oldTaxable, hd]
  norm_num [oldGross, inputZero, max_def]

/-- On the all-zero record the New-Regime taxable income is 0. -/
theorem newTaxable_inputZero : newTaxable inputZero = 0 := by
  norm_num [newTaxable, newGross, newStdDeduction, inputZero, max_def]

/-!
## Claims
-/

/-- C1: in the Old-Regime calculator, whenever the computed taxable income
is at most 500,000 the returned `base_tax` is 0 regardless of the slab
computation, and in the New-Regime calculator, whenever the computed
taxable income is at most 700,000 the returned `base_tax` is 0. -/
theorem rebate_dominance (d : TaxInput) :
    (oldTaxable d ≤ 500000 → (oldRegimeResult d).base_tax = 0) ∧
    (newTaxable d ≤ 700000 → (newRegimeResult d).base_tax = 0) := by
  constructor
  · intro h
    have hb : oldBaseTax d = 0 := by rw [oldBaseTax, if_pos h]
    show round2 (oldBaseTax d) = 0
    rw [hb]
    norm_num [round2]
  · intro h
    have hb : newBaseTax d = 0 := by rw [newBaseTax, if_pos h]
    show round2 (newBaseTax d) = 0
    rw [hb]
    norm_num [round2]

/-- Witness for C1 at the all-zero record, whose taxable income is 0 in
both regimes. -/
theorem rebate_dominance_witness :
    (oldRegimeResult inputZero).base_tax = 0 ∧ (newRegimeResult inputZero).base_tax = 0 :=
  ⟨(rebate_dominance inputZero).1 (by rw [oldTaxable_inputZero]; norm_num),
   (rebate_dominance inputZero).2 (by rw [newTaxable_inputZero]; norm_num)⟩

/-- C2 counterexample: at a salary of 800,000.25 the Old-Regime base tax
is 62,500.05, its exact 4% cess 2,500.002 is rounded to 2,500.00 and the
exact total 65,000.052 to 65,000.05, so among the returned (2-decimal
rounded) values neither `total_tax_payable = base_tax * 1.04` nor
`cess = base_tax * 0.04` holds. -/
theorem cess_relation_fails_on_returned_values :
    ¬ ((oldRegimeResult inputPaise).total_tax_payable
          = (oldRegimeResult inputPaise).base_tax * 1.04 ∧
       (oldRegimeResult inputPaise).cess
          = (oldRegimeResult inputPaise).base_tax * 0.04) := by
  have hpt : oldProfTax inputPaise = 0 := by
    rw [oldProfTax]
    exact profTax_delhi _
  have hg : oldGross inputPaise = 800000.25 := by
    rw [oldGross]
    norm_num [inputPaise]
  have hd : oldTotalDeductions inputPaise = 50000 := by
    rw [oldTotalDeductions, hpt]
    norm_num [oldHraExemption, hra_exemption_calc, inputPaise, min_def]
  have ht : oldTaxable inputPaise = 750000.25 := by
    rw [oldTaxable, hg, hd]
    norm_num [max_def]
  have hb : oldBaseTax inputPaise = 62500.05 := by
    rw [oldBaseTax, ht, oldSlab]
    norm_num
  have htt : oldTotalTax inputPaise = 65000.052 := by
    rw [oldTotalTax, oldCess, hb]
    norm_num
  have hc : oldCess inputPaise = 2500.002 := by
    rw [oldCess, hb]
    norm_num
  show ¬ (round2 (oldTotalTax inputPaise) = round2 (oldBaseTax inputPaise) * 1.04 ∧
      round2 (oldCess inputPaise) = round2 (oldBaseTax inputPaise) * 0.04)
  rw [htt, hb, hc]
  norm_num [round2, round_eq]

/-- C2 (amended): for every input and both regimes the relationship holds
exactly among the pre-rounding values — `total_tax = base_tax * 1.04` and
`cess = base_tax * 0.04` — and the returned values are exactly these
quantities rounded to 2 decimals. -/
theorem cess_exact_pre_rounding :
    ∀ d : TaxInput,
      oldTotalTax d = oldBaseTax d * 1.04 ∧
      oldCess d = oldBaseTax d * 0.04 ∧
      (oldRegimeResult d).total_tax_payable = round2 (oldBaseTax d * 1.04) ∧
      (oldRegimeResult d).cess = round2 (oldBaseTax d * 0.04) ∧
      newTotalTax d = newBaseTax d * 1.04 ∧
      newCess d = newBaseTax d * 0.04 ∧
      (newRegimeResult d).total_tax_payable = round2 (newBaseTax d * 1.04) ∧
      (newRegimeResult d).cess = round2 (newBaseTax d * 0.04) := by
  intro d
  have h1 : oldTotalTax d = oldBaseTax d * 1.04 := by
    rw [oldTotalTax, oldCess]; ring
  have h2 : newTotalTax d = newBaseTax d * 1.04 := by
    rw [newTotalTax, newCess]; ring
  refine ⟨h1, rfl, ?_, rfl, h2, rfl, ?_, rfl⟩
  · show round2 (oldTotalTax d) = round2 (oldBaseTax d * 1.04)
    rw [h1]
  · show round2 (newTotalTax d) = round2 (newBaseTax d * 1.04)
    rw [h2]

/-- C3 counterexample: on the scenario-2 input the New-Regime calculator
does return taxable income 750,000, but its base tax is 15,000 +
(750,000 − 600,000) × 0.10 = 30,000, not the claimed 45,000 (the spec's
own tier sum 15,000 + 15,000 was added up wrongly), so the claimed
output quadruple is false. -/
theorem scenario2_claim_false :
    ¬ ((newRegimeResult scenarioOne).taxable_income = 750000 ∧
       (newRegimeResult scenarioOne).base_tax = 45000 ∧
       (newRegimeResult scenarioOne).cess = 1800 ∧
       (newRegimeResult scenarioOne).total_tax_payable = 46800) := by
  norm_num [newRegimeResult, newBaseTax, newSlab, newTaxable, newGross, newStdDeduction,
    newCess, newTotalTax, scenarioOne, round2, round_eq]

/-- C3 (amended): on the scenario-2 input (salary 800,000, all other
income 0) the New-Regime calculator returns taxable income 750,000, base
tax 30,000, cess 1,200 and total tax payable 31,200. -/
theorem scenario2_amended :
    (newRegimeResult scenarioOne).taxable_income = 750000 ∧
    (newRegimeResult scenarioOne).base_tax = 30000 ∧
    (newRegimeResult scenarioOne).cess = 1200 ∧
    (newRegimeResult scenarioOne).total_tax_payable = 31200 := by
  norm_num [newRegimeResult, newBaseTax, newSlab, newTaxable, newGross, newStdDeduction,
    newCess, newTotalTax, scenarioOne, round2, round_eq]

set_option maxHeartbeats 1000000 in
/-- The Old-Regime pre-rebate slab function is monotone. -/
theorem oldSlab_mono (x y : ℚ) (h : x ≤ y) : oldSlab x ≤ oldSlab y := by
  simp only [oldSlab]
  split_ifs <;> linarith

set_option maxHeartbeats 1000000 in
/-- The New-Regime pre-rebate slab function is monotone. -/
theorem newSlab_mono (x y : ℚ) (h : x ≤ y) : newSlab x ≤ newSlab y := by
  simp only [newSlab]
  split_ifs <;> linarith

set_option maxHeartbeats 4000000 in
/-- C4: for each regime the pre-rebate slab function is non-decreasing on
the non-negative inputs, agrees at every bracket boundary with the next
bracket's formula evaluated there (continuity), and is linear with the
bracket's marginal rate inside every bracket (piecewise linearity). -/
theorem slab_monotone_continuous :
    (∀ x y : ℚ, 0 ≤ x → x ≤ y → oldSlab x ≤ oldSlab y) ∧
    (∀ x y : ℚ, 0 ≤ x → x ≤ y → newSlab x ≤ newSlab y) ∧
    oldSlab 250000 = (250000 - 250000) * 0.05 ∧
    oldSlab 500000 = 12500 + (500000 - 500000) * 0.20 ∧
    oldSlab 1000000 = 112500 + (1000000 - 1000000) * 0.30 ∧
    newSlab 300000 = (300000 - 300000) * 0.05 ∧
    newSlab 600000 = 15000 + (600000 - 600000) * 0.10 ∧
    newSlab 900000 = 45000 + (900000 - 900000) * 0.15 ∧
    newSlab 1200000 = 90000 + (1200000 - 1200000) * 0.20 ∧
    newSlab 1500000 = 150000 + (1500000 - 1500000) * 0.30 ∧
    (∀ x y : ℚ, 0 ≤ x → x ≤ y → y ≤ 250000 → oldSlab y - oldSlab x = (y - x) * 0) ∧
    (∀ x y : ℚ, 250000 ≤ x → x ≤ y → y ≤ 500000 → oldSlab y - oldSlab x = (y - x) * 0.05) ∧
    (∀ x y : ℚ, 500000 ≤ x → x ≤ y → y ≤ 1000000 → oldSlab y - oldSlab x = (y - x) * 0.20) ∧
    (∀ x y : ℚ, 1000000 ≤ x → x ≤ y → oldSlab y - oldSlab x = (y - x) * 0.30) ∧
    (∀ x y : ℚ, 0 ≤ x → x ≤ y → y ≤ 300000 → newSlab y - newSlab x = (y - x) * 0) ∧
    (∀ x y : ℚ, 300000 ≤ x → x ≤ y → y ≤ 600000 → newSlab y - newSlab x = (y - x) * 0.05) ∧
    (∀ x y : ℚ, 600000 ≤ x → x ≤ y → y ≤ 900000 → newSlab y - newSlab x = (y - x) * 0.10) ∧
    (∀ x y : ℚ, 900000 ≤ x → x ≤ y → y ≤ 1200000 → newSlab y - newSlab x = (y - x) * 0.15) ∧
    (∀ x y : ℚ, 1200000 ≤ x → x ≤ y → y ≤ 1500000 → newSlab y - newSlab x = (y - x) * 0.20) ∧
    (∀ x y : ℚ, 1500000 ≤ x → x ≤ y → newSlab y - newSlab x = (y - x) * 0.30) := by
  refine ⟨fun x y _ h => oldSlab_mono x y h, fun x y _ h => newSlab_mono x y h,
    by norm_num [oldSlab], by norm_num [oldSlab], by norm_num [oldSlab],
    by norm_num [newSlab], by norm_num [newSlab], by norm_num [newSlab],
    by norm_num [newSlab], by norm_num [newSlab], ?_, ?_, ?_, ?_, ?_, ?_, ?_, ?_, ?_, ?_⟩ <;>
  · intro x y h1 h2
    try intro h3
    simp only [oldSlab, newSlab]
    split_ifs <;> linarith

/-- Witness for C4: monotonicity across brackets and the 10% marginal
rate inside the New-Regime 600k-900k bracket, at concrete points. -/
theorem slab_monotone_continuous_witness :
    oldSlab 400000 ≤ oldSlab 800000 ∧
    newSlab 800000 - newSlab 700000 = (800000 - 700000) * 0.10 := by
  obtain ⟨m1, -, -, -, -, -, -, -, -, -, -, -, -, -, -, -, lin10, -, -, -⟩ :=
    slab_monotone_continuous
  exact ⟨m1 400000 800000 (by norm_num) (by norm_num),
    lin10 700000 800000 (by norm_num) (by norm_num) (by norm_num)⟩

/-- C5: the Old-Regime HRA exemption is 0 whenever any of the HRA amount,
the rent, or the salary is 0; when all three are strictly positive it is
the three-way minimum of the HRA received, `max 0 (rent - 10% salary)`,
and the city-percentage limit (50% Metro, 40% Non-Metro) of salary, and
hence at most each of the three candidates. -/
theorem hra_exemption_spec :
    (∀ salary hra_received rent_paid : ℚ, ∀ city : String,
        hra_received = 0 ∨ rent_paid = 0 ∨ salary = 0 →
        hra_exemption_calc salary hra_received rent_paid city = 0) ∧
    (∀ salary hra_received rent_paid : ℚ, ∀ city : String,
        hra_received > 0 → rent_paid > 0 → salary > 0 →
        hra_exemption_calc salary hra_received rent_paid city
            = min hra_received (min (max 0 (rent_paid - 0.10 * salary))
                (hraLimitPct city * salary)) ∧
        hra_exemption_calc salary hra_received rent_paid city ≤ hra_received ∧
        hra_exemption_calc salary hra_received rent_paid city
            ≤ max 0 (rent_paid - 0.10 * salary) ∧
        hra_exemption_calc salary hra_received rent_paid city ≤ hraLimitPct city * salary) ∧
    hraLimitPct "Metro" = 0.50 ∧ hraLimitPct "Non-Metro" = 0.40 := by
  refine ⟨?_, ?_, ?_, ?_⟩
  · intro s hra rent city h
    have hng : ¬ (hra > 0 ∧ rent > 0 ∧ s > 0) := by
      rintro ⟨h1, h2, h3⟩
      rcases h with rfl | rfl | rfl <;> linarith
    rw [hra_exemption_calc, if_neg hng]
  · intro s hra rent city h1 h2 h3
    rw [hra_exemption_calc, if_pos ⟨h1, h2, h3⟩]
    exact ⟨rfl, min_le_left _ _, le_trans (min_le_right _ _) (min_le_left _ _),
      le_trans (min_le_right _ _) (min_le_right _ _)⟩
  · rw [hraLimitPct, if_pos (by decide : pyLower (pyStrip "Metro") = "metro")]
  · rw [hraLimitPct, if_neg (by decide : ¬ pyLower (pyStrip "Non-Metro") = "metro")]

/-- Witness for C5: a positive-case bound and a zero-salary case. -/
theorem hra_exemption_spec_witness :
    hra_exemption_calc 100000 20000 30000 "Metro" ≤ 20000 ∧
    hra_exemption_calc 0 5000 5000 "Metro" = 0 :=
  ⟨(hra_exemption_spec.2.1 100000 20000 30000 "Metro" (by norm_num) (by norm_num)
      (by norm_num)).2.1,
   hra_exemption_spec.1 0 5000 5000 "Metro" (Or.inr (Or.inr rfl))⟩

/-- C6: for every state name and non-negative gross income, the
professional-tax lookup returns the 2500/2000/0 schedule when the
lower-cased stripped name is one of the ten high-PT states, and 0 for
every other name, with no error condition. -/
theorem professional_tax_spec :
    ∀ (st : String) (gross_income : ℚ), 0 ≤ gross_income →
      (pyStrip (pyLower st) ∈ high_pt_states →
        get_professional_tax st gross_income =
          (if gross_income > 150000 then 2500
           else if gross_income > 100000 then 2000 else 0)) ∧
      (pyStrip (pyLower st) ∉ high_pt_states →
        get_professional_tax st gross_income = 0) := by
  intro st g hg
  constructor
  · intro hmem
    simp only [get_professional_tax]
    rw [if_pos hmem]
  · intro hmem
    simp only [get_professional_tax]
    rw [if_neg hmem]

/-- Witness for C6: `" Karnataka "` normalises into the high-PT set and a
gross income of 200,000 yields a professional tax of 2,500. -/
theorem professional_tax_spec_witness :
    get_professional_tax " Karnataka " 200000 = 2500 := by
  have h := (professional_tax_spec " Karnataka " 200000 (by norm_num)).1 (by decide)
  rw [h]
  norm_num

/-- C7: the comparator picks `"New Regime"` exactly when the New-Regime
returned total is strictly below the Old-Regime returned total and
`"Old Regime"` otherwise (ties go to Old); on the all-zero record both
totals are 0 and the tie resolves to `"Old Regime"`. -/
theorem best_regime_tiebreak :
    (∀ d : TaxInput,
        ((comprehensiveResult d).best_regime = "New Regime" ↔
          (newRegimeResult d).total_tax_payable < (oldRegimeResult d).total_tax_payable) ∧
        ((comprehensiveResult d).best_regime = "Old Regime" ↔
          ¬ (newRegimeResult d).total_tax_payable < (oldRegimeResult d).total_tax_payable)) ∧
    (oldRegimeResult inputZero).total_tax_payable = 0 ∧
    (newRegimeResult inputZero).total_tax_payable = 0 ∧
    (comprehensiveResult inputZero).best_regime = "Old Regime" := by
  have hne : ("New Regime" : String) ≠ "Old Regime" := by decide
  have hbest : ∀ d : TaxInput, (comprehensiveResult d).best_regime =
      (if (newRegimeResult d).total_tax_payable < (oldRegimeResult d).total_tax_payable
       then "New Regime" else "Old Regime") := fun d => rfl
  have hOld0 : (oldRegimeResult inputZero).total_tax_payable = 0 := by
    have hob : oldBaseTax inputZero = 0 := by
      rw [oldBaseTax, if_pos (by rw [oldTaxable_inputZero]; norm_num)]
    show round2 (oldTotalTax inputZero) = 0
    rw [oldTotalTax, oldCess, hob]
    norm_num [round2]
  have hNew0 : (newRegimeResult inputZero).total_tax_payable = 0 := by
    have hnb : newBaseTax inputZero = 0 := by
      rw [newBaseTax, if_pos (by rw [newTaxable_inputZero]; norm_num)]
    show round2 (newTotalTax inputZero) = 0
    rw [newTotalTax, newCess, hnb]
    norm_num [round2]
  refine ⟨?_, hOld0, hNew0, ?_⟩
  · intro d
    rw [hbest d]
    by_cases hlt :
        (newRegimeResult d).total_tax_payable < (oldRegimeResult d).total_tax_payable
    · rw [if_pos hlt]
      exact ⟨⟨fun _ => hlt, fun _ => rfl⟩,
        ⟨fun h => absurd h hne, fun h => absurd hlt h⟩⟩
    · rw [if_neg hlt]
      exact ⟨⟨fun h => absurd h.symm hne, fun h => absurd h hlt⟩,
        ⟨fun _ => hlt, fun _ => rfl⟩⟩
  · rw [hbest inputZero, if_neg (by rw [hOld0, hNew0]; norm_num)]

/-- A record whose `annual_income` holds a non-numeric, non-empty string:
`float("twelve")` raises `ValueError`. -/
def badData : TaxData := [("annual_income", PyVal.str "twelve" Option.none)]

/-- The suggestion-checked fields of `calculate_comprehensive` are safe
exactly when the stored value is a number or falsy (Python `v < bound`
raises on a truthy string). -/
def numOrFalsy (v : Option PyVal) : Bool :=
  match v.getD PyVal.noneV with
  | PyVal.num _ => true
  | w => !w.truthy

/-- A successful `Except` computation carries a value. -/
theorem exOk_ok {α : Type} {e : Except String α} (h : exOk e = true) : ∃ a, e = .ok a := by
  cases e with
  | ok a => exact ⟨a, rfl⟩
  | error b => simp [exOk] at h

/-- `ok`-bind reduction for the `Except` monad. -/
theorem except_bind_ok {α β : Type} (a : α) (f : α → Except String β) :
    (Except.ok a >>= f : Except String β) = f a := rfl

/-- On a number-or-falsy field value both suggestion primitives succeed. -/
theorem numOrFalsy_checks (v : Option PyVal) (bound : ℚ) (h : numOrFalsy v = true) :
    (∃ b, orZeroLtCheck v bound = .ok b) ∧ (∃ q, orZeroValue v = .ok q) := by
  rcases v with _ | w
  · exact ⟨⟨_, rfl⟩, ⟨_, rfl⟩⟩
  · cases w with
    | num q =>
      constructor
      · simp only [orZeroLtCheck, Option.getD]
        split_ifs <;> exact ⟨_, rfl⟩
      · simp only [orZeroValue, Option.getD]
        split_ifs <;> exact ⟨_, rfl⟩
    | str s p =>
      have hs : s = "" := by
        simpa [numOrFalsy, PyVal.truthy] using h
      subst hs
      exact ⟨⟨_, rfl⟩, ⟨_, rfl⟩⟩
    | noneV => exact ⟨⟨_, rfl⟩, ⟨_, rfl⟩⟩

/-- C8 counterexample: on a record whose `annual_income` is the
non-numeric string `"twelve"`, all three calculators raise (the claimed
treat-as-zero behaviour does not happen). -/
theorem nonnumeric_string_raises :
    exOk (calculate_tax_old_regime badData) = false ∧
    exOk (calculate_tax_new_regime badData) = false ∧
    exOk (calculate_comprehensive badData) = false :=
  ⟨rfl, rfl, rfl⟩

/-- C8 (amended): a missing key is treated as zero, and the calculators
complete without raising whenever each numeric field coerces (it is a
number, `None`, an empty string, or a parseable numeric string), the
`state` field is a string or missing, the `city_type` field coerces, and
the two suggestion-checked fields are numbers or falsy; a truthy
non-numeric string, by contrast, raises (see the counterexample). -/
theorem coercion_no_raise (d : TaxData)
    (h1 : exOk (getNum d "annual_income") = true)
    (h2 : exOk (getNum d "income_from_interest") = true)
    (h3 : exOk (getNum d "income_from_other_sources") = true)
    (h4 : exOk (getStateStr d) = true)
    (h5 : exOk (getNum d "section_80c") = true)
    (h6 : exOk (getNum d "section_80d") = true)
    (h7 : exOk (getNum d "section_80ccd_1b") = true)
    (h8 : exOk (getNum d "section_80tta") = true)
    (h9 : exOk (getNum d "home_loan_interest") = true)
    (h10 : exOk (getNum d "hra_received") = true)
    (h11 : exOk (getNum d "rent_paid") = true)
    (h12 : exOk (getCityStr d) = true)
    (h13 : numOrFalsy (getVal d "section_80c") = true)
    (h14 : numOrFalsy (getVal d "section_80ccd_1b") = true) :
    exOk (calculate_tax_old_regime d) = true ∧
    exOk (calculate_tax_new_regime d) = true ∧
    exOk (calculate_comprehensive d) = true ∧
    (∀ k : String, getVal d k = Option.none → getNum d k = Except.ok 0) := by
  obtain ⟨q1, e1⟩ := exOk_ok h1
  obtain ⟨q2, e2⟩ := exOk_ok h2
  obtain ⟨q3, e3⟩ := exOk_ok h3
  obtain ⟨st, e4⟩ := exOk_ok h4
  obtain ⟨q5, e5⟩ := exOk_ok h5
  obtain ⟨q6, e6⟩ := exOk_ok h6
  obtain ⟨q7, e7⟩ := exOk_ok h7
  obtain ⟨q8, e8⟩ := exOk_ok h8
  obtain ⟨q9, e9⟩ := exOk_ok h9
  obtain ⟨q10, e10⟩ := exOk_ok h10
  obtain ⟨q11, e11⟩ := exOk_ok h11
  obtain ⟨ct, e12⟩ := exOk_ok h12
  obtain ⟨⟨bc, ec1⟩, ⟨vc, ec2⟩⟩ := numOrFalsy_checks (getVal d "section_80c") 150000 h13
  obtain ⟨⟨bn, en1⟩, ⟨vn, en2⟩⟩ := numOrFalsy_checks (getVal d "section_80ccd_1b") 50000 h14
  have hOld : ∃ r, calculate_tax_old_regime d = .ok r := by
    rw [calculate_tax_old_regime]
    rw [e1, except_bind_ok, e2, except_bind_ok, e3, except_bind_ok, e4, except_bind_ok,
      e5, except_bind_ok, e6, except_bind_ok, e7, except_bind_ok, e8, except_bind_ok,
      e9, except_bind_ok, e10, except_bind_ok, e11, except_bind_ok]
    split_ifs
    · rw [e12, except_bind_ok]
      exact ⟨_, rfl⟩
    · exact ⟨_, rfl⟩
  have hNew : ∃ r, calculate_tax_new_regime d = .ok r := by
    rw [calculate_tax_new_regime]
    rw [e1, except_bind_ok, e2, except_bind_ok, e3, except_bind_ok]
    exact ⟨_, rfl⟩
  obtain ⟨ro, ho⟩ := hOld
  obtain ⟨rn, hn⟩ := hNew
  have hComp : ∃ r, calculate_comprehensive d = .ok r := by
    rw [calculate_comprehensive]
    rw [ho, except_bind_ok, hn, except_bind_ok, ec1, except_bind_ok]
    cases bc <;> cases bn <;>
      simp only [Bool.false_eq_true, if_true, if_false, ec2, en1, en2, except_bind_ok,
        pure, if_pos, if_neg] <;>
      exact ⟨_, rfl⟩
  obtain ⟨rc, hc⟩ := hComp
  refine ⟨by rw [ho]; rfl, by rw [hn]; rfl, by rw [hc]; rfl, ?_⟩
  intro k hk
  rw [getNum, hk]
  rfl

/-- A well-behaved record: a numeric-string salary, a string state, a
numeric 80C field and a `None` city; every coercion succeeds. -/
def goodData : TaxData :=
  [("annual_income", PyVal.str "800000" (some 800000)),
   ("state", PyVal.str "Karnataka" Option.none),
   ("section_80c", PyVal.num 50000),
   ("city_type", PyVal.noneV)]

/-- Witness for C8 on `goodData`, including a missing key coerced to 0. -/
theorem coercion_no_raise_witness :
    exOk (calculate_tax_old_regime goodData) = true ∧
    exOk (calculate_tax_new_regime goodData) = true ∧
    exOk (calculate_comprehensive goodData) = true ∧
    getNum goodData "rent_paid" = Except.ok 0 := by
  have h := coercion_no_raise goodData rfl rfl rfl rfl rfl rfl rfl rfl rfl rfl rfl rfl rfl rfl
  exact ⟨h.1, h.2.1, h.2.2.1, h.2.2.2 "rent_paid" rfl⟩

/-- The sum of the eight entries of the Old-Regime components breakdown. -/
def componentsSum (c : OldComponents) : ℚ :=
  c.std_deduction + c.ded_80c + c.ded_80d + c.ded_80ccd_1b + c.ded_80tta
    + c.hra_exemption + c.home_loan_interest + c.prof_tax

/-- Rounding to two decimals moves a value by at most half a paise. -/
theorem abs_round2_sub (x : ℚ) : |round2 x - x| ≤ 1 / 200 := by
  have h := abs_sub_round (x * 100)
  have he : round2 x - x = (((round (x * 100) : ℤ) : ℚ) - x * 100) / 100 := by
    rw [round2]
    ring
  rw [abs_sub_comm] at h
  rw [he, abs_div, abs_of_pos (by norm_num : (0:ℚ) < 100)]
  have h2 := (div_le_div_iff_of_pos_right (by norm_num : (0:ℚ) < 100)).mpr h
  linarith

/-- C9: the eight entries of the Old-Regime components breakdown sum to
the reported `total_deductions` up to the two independent 2-decimal
roundings (of `total_deductions` and of the HRA entry), i.e. within one
paisa. -/
theorem components_sum_invariant (d : TaxInput) :
    |componentsSum (oldRegimeResult d).components
        - (oldRegimeResult d).total_deductions| ≤ 1 / 100 := by
  have h1 := abs_round2_sub (oldHraExemption d)
  have h2 := abs_round2_sub (oldTotalDeductions d)
  have hcs : componentsSum (oldRegimeResult d).components
      = oldTotalDeductions d - oldHraExemption d + round2 (oldHraExemption d) := by
    show (50000 : ℚ) + min d.section_80c 150000 + min d.section_80d 25000
        + min d.section_80ccd_1b 50000 + min d.section_80tta 10000
        + round2 (oldHraExemption d) + min d.home_loan_interest 200000 + oldProfTax d
      = oldTotalDeductions d - oldHraExemption d + round2 (oldHraExemption d)
    rw [oldTotalDeductions]
    ring
  have htd : (oldRegimeResult d).total_deductions = round2 (oldTotalDeductions d) := rfl
  rw [hcs, htd]
  have key : oldTotalDeductions d - oldHraExemption d + round2 (oldHraExemption d)
      - round2 (oldTotalDeductions d)
      = (round2 (oldHraExemption d) - oldHraExemption d)
        - (round2 (oldTotalDeductions d) - oldTotalDeductions d) := by
    ring
  rw [key]
  have h3 := abs_add (round2 (oldHraExemption d) - oldHraExemption d)
    (-(round2 (oldTotalDeductions d) - oldTotalDeductions d))
  rw [abs_neg] at h3
  rw [sub_eq_add_neg]
  linarith

/-- C10: when the `city_type` field is missing, `None`, or any string,
the coercion of line 44 succeeds, the Metro limit 0.50 is selected
exactly when the stripped lower-cased value equals `"metro"`, and every
other value — in particular a missing or `None` field — selects the
Non-Metro limit 0.40. -/
theorem city_type_default (d : TaxData)
    (h : getVal d "city_type" = Option.none ∨ getVal d "city_type" = some PyVal.noneV ∨
        ∃ s p, getVal d "city_type" = some (PyVal.str s p)) :
    ∃ c, getCityStr d = Except.ok c ∧
      (hraLimitPct c = 0.50 ↔ pyLower (pyStrip c) = "metro") ∧
      (pyLower (pyStrip c) ≠ "metro" → hraLimitPct c = 0.40) ∧
      ((getVal d "city_type" = Option.none ∨ getVal d "city_type" = some PyVal.noneV) →
        hraLimitPct c = 0.40) := by
  have hiff : ∀ c : String,
      (hraLimitPct c = 0.50 ↔ pyLower (pyStrip c) = "metro") ∧
      (pyLower (pyStrip c) ≠ "metro" → hraLimitPct c = 0.40) := by
    intro c
    rw [hraLimitPct]
    split_ifs with hm
    · exact ⟨⟨fun _ => hm, fun _ => rfl⟩, fun hn => absurd hm hn⟩
    · exact ⟨⟨fun h5 => absurd h5 (by norm_num), fun hp => absurd hp hm⟩, fun _ => rfl⟩
  rcases h with hv | hv | ⟨s, p, hv⟩
  · have hc : getCityStr d = .ok "" := by rw [getCityStr, hv]; rfl
    exact ⟨"", hc, (hiff "").1, (hiff "").2, fun _ => (hiff "").2 (by decide)⟩
  · have hc : getCityStr d = .ok "" := by rw [getCityStr, hv]; rfl
    exact ⟨"", hc, (hiff "").1, (hiff "").2, fun _ => (hiff "").2 (by decide)⟩
  · have hc : getCityStr d = .ok s := by
      rw [getCityStr, hv]
      simp only [orEmptyStr, Option.getD, PyVal.truthy]
      by_cases hs : s = ""
      · subst hs
        rfl
      · rw [if_pos (bne_iff_ne.mpr hs)]
    refine ⟨s, hc, (hiff s).1, (hiff s).2, fun hcon => ?_⟩
    rw [hv] at hcon
    rcases hcon with hbad | hbad <;> simp at hbad

/-- Witness for C10 at the empty dict: `city_type` is missing, the
coercion yields `""` and the Non-Metro limit 0.40 applies. -/
theorem city_type_default_witness :
    ∃ c, getCityStr ([] : TaxData) = Except.ok c ∧
      (hraLimitPct c = 0.50 ↔ pyLower (pyStrip c) = "metro") ∧
      (pyLower (pyStrip c) ≠ "metro" → hraLimitPct c = 0.40) ∧
      ((getVal ([] : TaxData) "city_type" = Option.none ∨
        getVal ([] : TaxData) "city_type" = some PyVal.noneV) → hraLimitPct c = 0.40) :=
  city_type_default [] (Or.inl rfl)

end TaxEngine
